import Mathlib

/-!
Verification of the binary metadata-embedding core of the GroundSwell
image metadata tool, shallowly embedded from src/api/index.py and
src/app.py.  Metadata dictionaries become string-keyed association
lists, byte strings become `List Nat`, and the Python helpers
(`create_xmp_packet`, the JPEG XMP splice, the PNG chunk calls, the
extension dispatch and the safe-filename computation) become the Lean
functions below.
-/

/-- Models the Python `metadata.get(key, default)` read of the operator
metadata dictionary (modelled as a string-keyed association list). -/
def dget (metadata : List (String × String)) (key dflt : String) : String :=
  ((metadata.lookup key).getD dflt)

/-- Splits a character list at every occurrence of the separator,
keeping empty groups, as Python `str.split(sep)` does. -/
def splitChar (sep : Char) : List Char → List (List Char)
  | [] => [[]]
  | c :: rest =>
    match splitChar sep rest with
    | [] => [[]]
    | g :: gs => if c == sep then [] :: g :: gs else (c :: g) :: gs

/-- Models Python `s.split(sep)` for a one-character separator:
`""` yields `[""]`, and empty groups are kept. -/
def pySplit (s : String) (sep : Char) : List String :=
  (splitChar sep s.data).map String.mk

/-- Models the character class stripped by Python `str.strip()` (the
ASCII whitespace characters). -/
def pyIsSpace (c : Char) : Bool :=
  c == (' ') || c == ('\t') || c == ('\n') || c == ('\x0b') ||
    c == ('\x0c') || c == ('\r')

/-- Models Python `str.strip()`: removes leading and trailing
whitespace. -/
def pyStrip (s : String) : String :=
  String.mk (((s.data.dropWhile pyIsSpace).reverse.dropWhile pyIsSpace).reverse)

/-- Models Python `str.lower()` on the ASCII range (the Python method
also lowercases non-ASCII letters). -/
def pyLowerChar (c : Char) : Char :=
  if (('A') ≤ c ∧ c ≤ ('Z')) then Char.ofNat (c.toNat + 32) else c

/-- Models Python `str.lower()` character-wise. -/
def pyLower (s : String) : String :=
  String.mk (s.data.map pyLowerChar)

/-- Models Python `sep.join(parts)`. -/
def pyJoin (sep : String) : List String → String
  | [] => ("")
  | [x] => x
  | x :: y :: rest => x ++ sep ++ pyJoin sep (y :: rest)

/-- Models line 188 of src/api/index.py (line 208 of src/app.py):
`keywords = [kw.strip() for kw in subject.split(',') if kw.strip()]` —
the comma-split, whitespace-stripped, non-empty tokens of the subject
field. -/
def xmpKeywords (subject : String) : List String :=
  ((pySplit subject (',')).filter fun kw => pyStrip kw ≠ ("")).map pyStrip

/-- Models line 189 of src/api/index.py: the keyword lines of the
`rdf:Bag`, one `<rdf:li>` element per surviving keyword, joined with
newlines. -/
def keywords_xml (subject : String) : String :=
  pyJoin ("\n") ((xmpKeywords subject).map fun kw =>
    ("                        <rdf:li>") ++ kw ++ ("</rdf:li>"))

/-- Part of the f-string template of `create_xmp_packet`
(src/api/index.py lines 191-226) up to and including the newline after
`<rdf:Bag>`, with every interpolated field read through `dget` exactly
as the Python locals are (src/app.py differs only by one extra
`xmlns:iptcExt` declaration line). -/
def xmp_before_keywords (metadata : List (String × String)) : String :=
  ("<?xpacket begin=\"\" id=\"W5M0MpCehiHzreSzNTczkc9d\"?>\n<x:xmpmeta xmlns:x=\"adobe:ns:meta/\" x:xmptk=\"GroundSwell Metadata Tool\">\n    <rdf:RDF xmlns:rdf=\"http://www.w3.org/1999/02/22-rdf-syntax-ns#\">\n        <rdf:Description rdf:about=\"\"\n            xmlns:dc=\"http://purl.org/dc/elements/1.1/\"\n            xmlns:xmp=\"http://ns.adobe.com/xap/1.0/\"\n            xmlns:xmpRights=\"http://ns.adobe.com/xap/1.0/rights/\"\n            xmlns:photoshop=\"http://ns.adobe.com/photoshop/1.0/\"\n            xmlns:Iptc4xmpCore=\"http://iptc.org/std/Iptc4xmpCore/1.0/xmlns/\">\n\n            <dc:title>\n                <rdf:Alt>\n                    <rdf:li xml:lang=\"x-default\">") ++
  dget metadata ("xmp_title") ("") ++
  ("</rdf:li>\n                </rdf:Alt>\n            </dc:title>\n\n            <dc:description>\n                <rdf:Alt>\n                    <rdf:li xml:lang=\"x-default\">") ++
  dget metadata ("xmp_description") ("") ++
  ("</rdf:li>\n                </rdf:Alt>\n            </dc:description>\n\n            <dc:creator>\n                <rdf:Seq>\n                    <rdf:li>") ++
  dget metadata ("xmp_creator") ("GroundSwell") ++
  ("</rdf:li>\n                </rdf:Seq>\n            </dc:creator>\n\n            <dc:rights>\n                <rdf:Alt>\n                    <rdf:li xml:lang=\"x-default\">") ++
  dget metadata ("xmp_rights") ("") ++
  ("</rdf:li>\n                </rdf:Alt>\n            </dc:rights>\n\n            <dc:subject>\n                <rdf:Bag>\n")

/-- Part of the f-string template of `create_xmp_packet`
(src/api/index.py lines 227-249) from the newline after the
`{keywords_xml}` interpolation to the closing `<?xpacket end="w"?>`. -/
def xmp_after_keywords (metadata : List (String × String)) : String :=
  ("\n                </rdf:Bag>\n            </dc:subject>\n\n            <photoshop:Headline>") ++
  dget metadata ("xmp_headline") ("") ++
  ("</photoshop:Headline>\n            <photoshop:Credit>") ++
  dget metadata ("xmp_credit") ("GroundSwell") ++
  ("</photoshop:Credit>\n            <photoshop:Source>") ++
  dget metadata ("xmp_source") ("GroundSwell") ++
  ("</photoshop:Source>\n            <photoshop:DateCreated>") ++
  dget metadata ("xmp_date_created") ("") ++
  ("</photoshop:DateCreated>\n            <photoshop:Category>") ++
  dget metadata ("xmp_category") ("Business Ownership Platform") ++
  ("</photoshop:Category>\n\n            <xmpRights:Marked>True</xmpRights:Marked>\n\n            <Iptc4xmpCore:CreatorContactInfo>\n                <rdf:Description>\n                    <Iptc4xmpCore:CiUrlWork>") ++
  dget metadata ("xmp_website") ("www.groundswell.co") ++
  ("</Iptc4xmpCore:CiUrlWork>\n                    <Iptc4xmpCore:CiTelWork>") ++
  dget metadata ("xmp_phone") ("435-214-2997") ++
  ("</Iptc4xmpCore:CiTelWork>\n                </rdf:Description>\n            </Iptc4xmpCore:CreatorContactInfo>\n\n        </rdf:Description>\n    </rdf:RDF>\n</x:xmpmeta>\n<?xpacket end=\"w\"?>")

/-- Models `create_xmp_packet(metadata)` of src/api/index.py lines
175-251: the complete XMP packet, the template instantiated with the
defaulted field reads and the keyword lines spliced into the
`rdf:Bag`. -/
def create_xmp_packet (metadata : List (String × String)) : String :=
  xmp_before_keywords metadata ++
    keywords_xml (dget metadata ("xmp_subject") ("")) ++
    xmp_after_keywords metadata

/-- Boolean test that `pat` occurs as a prefix of `s`, on character
lists. -/
def charsStartWith : List Char → List Char → Bool
  | [], _ => true
  | _ :: _, [] => false
  | a :: as, b :: bs => a == b && charsStartWith as bs

/-- Boolean test that `pat` occurs as a contiguous substring of `s`, on
character lists. -/
def charsSub (pat : List Char) : List Char → Bool
  | [] => pat.isEmpty
  | c :: rest => charsStartWith pat (c :: rest) || charsSub pat rest

/-- Boolean test that the string `pat` occurs as a contiguous substring
of the string `s`. -/
def strContainsSub (s pat : String) : Bool :=
  charsSub pat.data s.data

/-- Models the safe output-filename stem computed by `save_metadata`
(src/api/index.py line 713, src/app.py line 486): keep only characters
that are alphanumeric or in ` -_`, replace spaces with underscores and
truncate to 50 characters.  `Char.isAlphanum` models Python
`str.isalnum` on the ASCII range (the Python predicate also accepts
non-ASCII Unicode letters and digits). -/
def safe_title (title : String) : String :=
  String.mk ((((title.data.filter fun c =>
      c.isAlphanum || c == (' ') || c == ('-') || c == ('_')).map
    fun c => if c == (' ') then ('_') else c).take 50))

/-- Models `Path(filename).name` from Python pathlib for POSIX paths:
the last path component after pathlib collapses spurious slashes and
single-dot components (so a trailing `/` or `/.` is ignored, while
`..` is kept), or the empty string when no component remains. -/
def pyPathName (filename : String) : String :=
  (((pySplit filename ('/')).filter fun p =>
      p != ("") && p != (".")).getLastD (""))

/-- Models `Path(filename).suffix` from Python pathlib for POSIX paths:
the extension of the final path component, including the dot, or the
empty string when the name has no usable extension (no dot, a leading
dot only, or a trailing dot). -/
def pySuffix (filename : String) : String :=
  let name := pyPathName filename
  let parts := pySplit name ('.')
  if 2 ≤ parts.length ∧ parts.getLastD ("") ≠ ("") ∧
      ¬(parts.length = 2 ∧ parts.headD ("") = ("")) then
    (".") ++ parts.getLastD ("")
  else ("")

/-- Models `Path(filename).suffix.lower()` as used by the dispatchers
(src/api/index.py line 322, src/app.py line 398). -/
def pySuffixLower (filename : String) : String :=
  pyLower (pySuffix filename)

/-- Models `process_image_metadata` of src/api/index.py lines 320-329:
dispatch on the lowercased file extension.  The JPEG and PNG writers
re-encode the pixel data through the imaging library, so their results
are abstracted as the parameters `jpegOut` and `pngOut`; the branch
structure and the pass-through default are the code's own. -/
def process_image_metadata (jpegOut pngOut : List Nat)
    (image_data : List Nat) (filename : String) : List Nat :=
  let ext := pySuffixLower filename
  if ext = (".jpg") ∨ ext = (".jpeg") then jpegOut
  else if ext = (".png") then pngOut
  else image_data

/-- Bytes of a string, one `Nat` code point per character (the strings
written to PNG text chunks and the XMP namespace are ASCII, where this
coincides with their encoded bytes). -/
def strBytes (s : String) : List Nat :=
  s.data.map Char.toNat

/-- Models the JPEG start-of-image signature `b'\xff\xd8'`
(src/app.py line 331). -/
def SOI : List Nat := [255, 216]

/-- Models the XMP application-segment marker `b'\xff\xe1'`
(src/api/index.py line 283, src/app.py line 335). -/
def xmp_marker : List Nat := [255, 225]

/-- Models the NUL-terminated XMP namespace identifier
`b'http://ns.adobe.com/xap/1.0/\x00'` (src/api/index.py line 284,
src/app.py line 336). -/
def xmp_header : List Nat :=
  strBytes ("http://ns.adobe.com/xap/1.0/") ++ [0]

/-- Models `segment_length = 2 + len(xmp_header) + len(xmp_bytes)`
(src/api/index.py line 287, src/app.py line 340). -/
def segment_length (xmp_bytes : List Nat) : Nat :=
  2 + xmp_header.length + xmp_bytes.length

/-- Models Python `n.to_bytes(2, 'big')`: the two big-endian bytes of
`n`, or `none` for the `OverflowError` raised when `n` does not fit in
two bytes. -/
def to_bytes_2_be (n : Nat) : Option (List Nat) :=
  if n < 65536 then some [n / 256, n % 256] else none

/-- Decodes a 2-byte big-endian length field. -/
def be_decode_2 (bs : List Nat) : Nat :=
  match bs with
  | [a, b] => a * 256 + b
  | _ => 0

/-- Models `embed_xmp_in_jpeg` of src/app.py lines 323-357 on the file
bytes `data` and the UTF-8 packet bytes `xmp_bytes`: if the stream does
not begin with the SOI signature the function returns `False` and the
file is left unchanged (modelled as `none`); the `OverflowError` raised
by `to_bytes` for an oversized segment is caught by the function's
`except` clause, which also returns `False` (also `none`); otherwise
the new file contents `data[:2] + xmp_segment + data[2:]` are written
back (modelled as `some`). -/
def embed_xmp_in_jpeg (data xmp_bytes : List Nat) : Option (List Nat) :=
  if data.take 2 = SOI then
    (to_bytes_2_be (segment_length xmp_bytes)).map fun length_bytes =>
      data.take 2 ++
        (xmp_marker ++ length_bytes ++ xmp_header ++ xmp_bytes) ++
        data.drop 2
  else none

/-- Models the XMP-splicing tail of `process_jpeg_metadata`
(src/api/index.py lines 283-293), applied to the codec-emitted JPEG
bytes `jpeg_data`: `final_data = jpeg_data[:2] + xmp_segment +
jpeg_data[2:]`, with no signature check; `none` models the uncaught
`OverflowError` raised by `to_bytes` when the segment length exceeds
two bytes. -/
def process_jpeg_splice (jpeg_data xmp_bytes : List Nat) : Option (List Nat) :=
  (to_bytes_2_be (segment_length xmp_bytes)).map fun length_bytes =>
    jpeg_data.take 2 ++
      (xmp_marker ++ length_bytes ++ xmp_header ++ xmp_bytes) ++
      jpeg_data.drop 2

/-- Models `write_metadata_to_jpeg` of src/app.py lines 308-314 from
the point where the codec has saved the Exif-bearing stream
`pil_output` to the output file: the function calls
`embed_xmp_in_jpeg`, discards its boolean result (on an embed failure
the file keeps the pre-embed codec output), and returns `True`.  The
result is the returned success flag paired with the final file
contents. -/
def write_metadata_to_jpeg_post (pil_output xmp_bytes : List Nat) :
    Bool × List Nat :=
  (true, (embed_xmp_in_jpeg pil_output xmp_bytes).getD pil_output)

/-- One reflected CRC-32 bit step: shift right, conditionally xor the
reversed polynomial 0xEDB88320. -/
def crcBit (c : Nat) : Nat :=
  if c % 2 = 1 then Nat.xor (c / 2) 3988292384 else c / 2

/-- One CRC-32 byte step: xor in the byte, then eight bit steps. -/
def crcByte (c b : Nat) : Nat :=
  crcBit^[8] (Nat.xor c b)

/-- Modelled from the spec: the standard CRC-32 checksum (reflected,
polynomial 0xEDB88320, initial value and final xor 0xFFFFFFFF) that the
chunk-framed container computes over chunk type plus data (spec
sections 4.5 and 6); the computation itself lives in the imaging
library, not in src/. -/
def crc32 (bs : List Nat) : Nat :=
  Nat.xor (bs.foldl crcByte 4294967295) 4294967295

/-- A chunk of the chunk-framed (PNG) container: a 4-byte ASCII type
and a data payload. -/
structure PngChunk where
  ctype : List Nat
  cdata : List Nat
deriving DecidableEq

/-- Big-endian 4-byte encoding of `n` (mod 2^32). -/
def be4 (n : Nat) : List Nat :=
  [n / 16777216 % 256, n / 65536 % 256, n / 256 % 256, n % 256]

/-- Modelled from the spec: the serialized form of one chunk — 4-byte
big-endian length of the data, the type, the data, then the CRC-32 over
type plus data (spec section 6); the serialization lives in the imaging
library, not in src/. -/
def chunkBytes (c : PngChunk) : List Nat :=
  be4 c.cdata.length ++ c.ctype ++ c.cdata ++ be4 (crc32 (c.ctype ++ c.cdata))

/-- The stored CRC field of a serialized chunk: the four bytes after
the length, type and data sections. -/
def storedCrc (c : PngChunk) : List Nat :=
  (chunkBytes c).drop (8 + c.cdata.length)

/-- The ASCII bytes of the `tEXt` chunk type. -/
def tEXtType : List Nat := [116, 69, 88, 116]

/-- Modelled from the spec: a textual chunk whose payload is
`keyword + NUL + value` (spec section 4.5); `PngInfo.add_text` builds
it inside the imaging library, not in src/. -/
def pngTextChunk (keyword value : String) : PngChunk :=
  ⟨tEXtType, strBytes keyword ++ [0] ++ strBytes value⟩

/-- Models the ten `pnginfo.add_text` calls of `process_png_metadata`
(src/api/index.py lines 301-310, src/app.py lines 369-378), in call
order, with the field mapping the code uses. -/
def pngMetaPairs (metadata : List (String × String)) : List (String × String) :=
  [(("Title"), dget metadata ("xmp_title") ("")),
   (("Description"), dget metadata ("xmp_description") ("")),
   (("Author"), dget metadata ("exif_artist") ("GroundSwell")),
   (("Copyright"), dget metadata ("exif_copyright") ("")),
   (("Comment"), dget metadata ("exif_user_comment") ("")),
   (("Keywords"), dget metadata ("iptc_keywords") ("")),
   (("Headline"), dget metadata ("iptc_headline") ("")),
   (("Credit"), dget metadata ("iptc_credit") ("GroundSwell")),
   (("Source"), dget metadata ("xmp_source") ("GroundSwell")),
   (("Creation Time"), dget metadata ("exif_create_date") (""))]

/-- The metadata chunks `process_png_metadata` registers: the ten
textual chunks in declaration order, then the XMP packet chunk under
the reserved keyword (src/api/index.py lines 312-313). -/
def pngMetaChunks (metadata : List (String × String)) : List PngChunk :=
  (pngMetaPairs metadata).map (fun p => pngTextChunk p.1 p.2) ++
    [pngTextChunk ("XML:com.adobe.xmp") (create_xmp_packet metadata)]

/-- Models `process_png_metadata` of src/api/index.py lines 296-317 at
the chunk level.  Modelled from the spec for the part the imaging
library performs: the registered metadata chunks are inserted after the
mandatory header chunk and before the remaining chunks of the source
image (spec section 4.5); the list of registered chunks and their
contents are the code's own. -/
def write_metadata_to_png (metadata : List (String × String))
    (header : PngChunk) (rest : List PngChunk) : List PngChunk :=
  header :: (pngMetaChunks metadata ++ rest)

/-- Closed form of the segment length: the namespace identifier is 29
bytes (28 ASCII characters plus the NUL), so the segment length is 31
plus the packet size. -/
theorem segment_length_eq (xs : List Nat) :
    segment_length xs = 31 + xs.length := by
  have h : xmp_header.length = 29 := rfl
  unfold segment_length
  rw [h]

/-- C10: the safe output-filename stem computed by `save_metadata` is
at most 50 characters long and consists only of alphanumerics, dashes
and underscores — spaces are replaced by underscores and every other
character (path separators included) is dropped. -/
theorem safe_title_spec (title : String) :
    (safe_title title).length ≤ 50 ∧
    (∀ c ∈ (safe_title title).data, c.isAlphanum ∨ c = ('-') ∨ c = ('_')) ∧
    (' ') ∉ (safe_title title).data ∧ ('/') ∉ (safe_title title).data := by
  have hmem : ∀ c ∈ (safe_title title).data,
      c.isAlphanum ∨ c = ('-') ∨ c = ('_') := by
    intro c hc
    have hc2 := List.mem_of_mem_take hc
    obtain ⟨a, ha, hfa⟩ := List.mem_map.mp hc2
    have hpa := (List.mem_filter.mp ha).2
    by_cases hsp : a = (' ')
    · right; right
      rw [if_pos (by simp [hsp])] at hfa
      exact hfa.symm
    · rw [if_neg (by simp [hsp])] at hfa
      subst hfa
      simp only [Bool.or_eq_true, beq_iff_eq] at hpa
      rcases hpa with ((hq | hq) | hq) | hq
      · exact Or.inl hq
      · exact absurd hq hsp
      · exact Or.inr (Or.inl hq)
      · exact Or.inr (Or.inr hq)
  refine ⟨?_, hmem, ?_, ?_⟩
  · have : (safe_title title).length =
        (((title.data.filter fun c =>
            c.isAlphanum || c == (' ') || c == ('-') || c == ('_')).map
          fun c => if c == (' ') then ('_') else c).take 50).length := rfl
    rw [this, List.length_take]
    omega
  · intro hsp
    rcases hmem _ hsp with hq | hq | hq <;> revert hq <;> decide
  · intro hsl
    rcases hmem _ hsl with hq | hq | hq <;> revert hq <;> decide

/-- C6: for every input byte sequence and filename whose lowercased
extension is outside the supported set, the dispatch returns the input
bytes unchanged. -/
theorem process_image_metadata_passthrough (jpegOut pngOut image_data : List Nat)
    (filename : String)
    (h : pySuffixLower filename ∉ ([".jpg", ".jpeg", ".png"] : List String)) :
    process_image_metadata jpegOut pngOut image_data filename = image_data := by
  simp only [List.mem_cons, List.not_mem_nil, or_false, not_or] at h
  obtain ⟨h1, h2, h3⟩ := h
  simp [process_image_metadata, h1, h2, h3]

/-- C6 witness: a `.webp` upload passes straight through. -/
theorem process_image_metadata_passthrough_witness :
    process_image_metadata [1] [2] [3, 4] ("logo.webp") = [3, 4] :=
  process_image_metadata_passthrough [1] [2] [3, 4] ("logo.webp") (by decide)

/-- C5 (amended): when the stream does not begin with the SOI
signature, the app-variant embed helper reports failure (returns
`False`) and leaves the file unchanged; there is no
InvalidContainerError and the caller discards the flag. -/
theorem embed_xmp_in_jpeg_bad_signature (data xmp_bytes : List Nat)
    (h : data.take 2 ≠ SOI) :
    embed_xmp_in_jpeg data xmp_bytes = none := by
  simp [embed_xmp_in_jpeg, h]

/-- C5 witness: a stream starting with two zero bytes is rejected by
the embed helper. -/
theorem embed_xmp_in_jpeg_bad_signature_witness :
    embed_xmp_in_jpeg [0, 0, 1] [65] = none :=
  embed_xmp_in_jpeg_bad_signature [0, 0, 1] [65] (by decide)

/-- C5 counterexample: on a stream with an invalid signature the
caller-facing JPEG write reports success and no error is surfaced —
the embed helper's failure flag is discarded, contradicting the claim
that an InvalidContainerError reaches the caller. -/
theorem write_metadata_to_jpeg_bad_signature_reports_success :
    write_metadata_to_jpeg_post [0, 0, 1] [65] = (true, [0, 0, 1]) := rfl

/-- C4 (amended): when the computed segment length exceeds 65535 the
2-byte big-endian conversion fails, so neither variant ever emits a
truncated length; but there is no explicit check and no CapacityError —
the api variant aborts with the uncaught conversion overflow and the
app variant catches it and returns its failure flag. -/
theorem embed_capacity_overflow (data xmp_bytes : List Nat)
    (h : 65535 < segment_length xmp_bytes) :
    embed_xmp_in_jpeg data xmp_bytes = none ∧
      process_jpeg_splice data xmp_bytes = none := by
  have hb : to_bytes_2_be (segment_length xmp_bytes) = none := by
    simp [to_bytes_2_be]
    omega
  constructor
  · simp [embed_xmp_in_jpeg, hb]
  · simp [process_jpeg_splice, hb]

/-- C4 witness: a 65600-byte packet overflows the 16-bit length
field in both variants. -/
theorem embed_capacity_overflow_witness :
    embed_xmp_in_jpeg [255, 216] (List.replicate 65600 65) = none ∧
      process_jpeg_splice [255, 216] (List.replicate 65600 65) = none :=
  embed_capacity_overflow [255, 216] (List.replicate 65600 65) (by
    rw [segment_length_eq, List.length_replicate]
    decide)

/-- C4 counterexample: with an oversized packet the app-variant write
reports success and leaves the codec output without any XMP segment,
instead of failing with a CapacityError. -/
theorem write_metadata_to_jpeg_capacity_reports_success :
    write_metadata_to_jpeg_post [255, 216] (List.replicate 65600 65) =
      (true, [255, 216]) := by
  have hlen : segment_length (List.replicate 65600 65) = 65631 := by
    rw [segment_length_eq, List.length_replicate]
  have hb : to_bytes_2_be (segment_length (List.replicate 65600 65)) = none := by
    rw [hlen]
    rfl
  have hembed : embed_xmp_in_jpeg [255, 216] (List.replicate 65600 65) = none := by
    unfold embed_xmp_in_jpeg
    rw [hb, if_pos (show List.take 2 [255, 216] = SOI from rfl)]
    rfl
  unfold write_metadata_to_jpeg_post
  rw [hembed]
  rfl

/-- C1: for a marker-framed embed on a stream with a valid SOI
signature and an in-range segment length, the output is the two SOI
bytes, then immediately the XMP segment marker, the 2-byte big-endian
length, the NUL-terminated namespace identifier and the packet bytes,
then the rest of the stream; the declared length decodes to 2 plus the
namespace identifier length plus the packet length, excluding the two
marker bytes.  Both variants agree. -/
theorem embed_xmp_in_jpeg_layout (data xmp_bytes : List Nat)
    (h1 : data.take 2 = SOI) (h2 : segment_length xmp_bytes ≤ 65535) :
    ∃ length_bytes,
      to_bytes_2_be (segment_length xmp_bytes) = some length_bytes ∧
      embed_xmp_in_jpeg data xmp_bytes =
        some (SOI ++ xmp_marker ++ length_bytes ++ xmp_header ++ xmp_bytes ++
          data.drop 2) ∧
      process_jpeg_splice data xmp_bytes =
        some (SOI ++ xmp_marker ++ length_bytes ++ xmp_header ++ xmp_bytes ++
          data.drop 2) ∧
      be_decode_2 length_bytes = 2 + xmp_header.length + xmp_bytes.length := by
  have hb : to_bytes_2_be (segment_length xmp_bytes) =
      some [segment_length xmp_bytes / 256, segment_length xmp_bytes % 256] := by
    simp only [to_bytes_2_be, if_pos (by omega : segment_length xmp_bytes < 65536)]
  refine ⟨_, hb, ?_, ?_, ?_⟩
  · simp only [embed_xmp_in_jpeg, h1, hb, Option.map_some']
    rw [if_true]
    simp [List.append_assoc]
  · simp only [process_jpeg_splice, h1, hb, Option.map_some']
    simp [List.append_assoc]
  · simp only [be_decode_2, segment_length]
    omega

/-- C1 witness: embedding a 3-byte packet into a 4-byte stream. -/
theorem embed_xmp_in_jpeg_layout_witness :
    ∃ length_bytes,
      to_bytes_2_be (segment_length [60, 63, 120]) = some length_bytes ∧
      embed_xmp_in_jpeg [255, 216, 9, 8] [60, 63, 120] =
        some (SOI ++ xmp_marker ++ length_bytes ++ xmp_header ++ [60, 63, 120] ++
          ([255, 216, 9, 8] : List Nat).drop 2) ∧
      process_jpeg_splice [255, 216, 9, 8] [60, 63, 120] =
        some (SOI ++ xmp_marker ++ length_bytes ++ xmp_header ++ [60, 63, 120] ++
          ([255, 216, 9, 8] : List Nat).drop 2) ∧
      be_decode_2 length_bytes =
        2 + xmp_header.length + ([60, 63, 120] : List Nat).length :=
  embed_xmp_in_jpeg_layout [255, 216, 9, 8] [60, 63, 120] (by decide) (by
    rw [segment_length_eq]
    decide)

/-- C8: the embed algorithm does not detect or replace an existing XMP
segment: embedding into a stream that already carries the segment (as
the output of a first embed does) prepends a second copy, so embedding
twice appends a duplicate segment and the result differs from the
single embed — the operation is not idempotent. -/
theorem embed_xmp_in_jpeg_not_idempotent (data xmp_bytes : List Nat)
    (h1 : data.take 2 = SOI) (h2 : segment_length xmp_bytes ≤ 65535) :
    ∃ once twice seg,
      embed_xmp_in_jpeg data xmp_bytes = some once ∧
      embed_xmp_in_jpeg once xmp_bytes = some twice ∧
      once = SOI ++ seg ++ data.drop 2 ∧
      twice = SOI ++ seg ++ seg ++ data.drop 2 ∧
      seg ≠ [] ∧
      twice ≠ once := by
  have hb : to_bytes_2_be (segment_length xmp_bytes) =
      some [segment_length xmp_bytes / 256, segment_length xmp_bytes % 256] := by
    simp only [to_bytes_2_be, if_pos (by omega : segment_length xmp_bytes < 65536)]
  have honce : embed_xmp_in_jpeg data xmp_bytes =
      some (SOI ++
        (xmp_marker ++ [segment_length xmp_bytes / 256,
          segment_length xmp_bytes % 256] ++ xmp_header ++ xmp_bytes) ++
        data.drop 2) := by
    simp only [embed_xmp_in_jpeg, h1, hb, Option.map_some']
    rw [if_true]
  have htake : ∀ X : List Nat, (SOI ++ X).take 2 = SOI :=
    fun X => List.take_left' rfl
  have hdrop : ∀ X : List Nat, (SOI ++ X).drop 2 = X :=
    fun X => List.drop_left' rfl
  have htwice : embed_xmp_in_jpeg
      (SOI ++
        (xmp_marker ++ [segment_length xmp_bytes / 256,
          segment_length xmp_bytes % 256] ++ xmp_header ++ xmp_bytes) ++
        data.drop 2) xmp_bytes =
      some (SOI ++
        (xmp_marker ++ [segment_length xmp_bytes / 256,
          segment_length xmp_bytes % 256] ++ xmp_header ++ xmp_bytes) ++
        ((xmp_marker ++ [segment_length xmp_bytes / 256,
          segment_length xmp_bytes % 256] ++ xmp_header ++ xmp_bytes) ++
          data.drop 2)) := by
    rw [List.append_assoc SOI]
    simp only [embed_xmp_in_jpeg, htake, hdrop, hb, Option.map_some']
    rw [if_true]
  refine ⟨SOI ++
      (xmp_marker ++ [segment_length xmp_bytes / 256,
        segment_length xmp_bytes % 256] ++ xmp_header ++ xmp_bytes) ++
      data.drop 2,
    SOI ++
      (xmp_marker ++ [segment_length xmp_bytes / 256,
        segment_length xmp_bytes % 256] ++ xmp_header ++ xmp_bytes) ++
      ((xmp_marker ++ [segment_length xmp_bytes / 256,
        segment_length xmp_bytes % 256] ++ xmp_header ++ xmp_bytes) ++
        data.drop 2),
    xmp_marker ++ [segment_length xmp_bytes / 256,
      segment_length xmp_bytes % 256] ++ xmp_header ++ xmp_bytes,
    honce, htwice, rfl, ?_, ?_, ?_⟩
  · simp [List.append_assoc]
  · simp [xmp_marker]
  · intro heq
    have hlen := congrArg List.length heq
    simp only [List.length_append, xmp_marker, List.length_cons,
      List.length_nil] at hlen
    omega

/-- C8 witness: double-embedding a 1-byte packet into a 3-byte
stream duplicates the segment. -/
theorem embed_xmp_in_jpeg_not_idempotent_witness :
    ∃ once twice seg,
      embed_xmp_in_jpeg [255, 216, 7] [66] = some once ∧
      embed_xmp_in_jpeg once [66] = some twice ∧
      once = SOI ++ seg ++ ([255, 216, 7] : List Nat).drop 2 ∧
      twice = SOI ++ seg ++ seg ++ ([255, 216, 7] : List Nat).drop 2 ∧
      seg ≠ [] ∧
      twice ≠ once :=
  embed_xmp_in_jpeg_not_idempotent [255, 216, 7] [66] (by decide) (by
    rw [segment_length_eq]
    decide)

/-- C3: the built packet is the fixed prefix, then the keyword lines,
then the fixed suffix; the keyword lines are one `<rdf:li>` entry per
surviving keyword; and the number of entries equals the count of
non-empty tokens obtained by splitting the subject field on commas and
trimming whitespace (the specification's formula, map-then-filter,
versus the code's filter-then-map). -/
theorem create_xmp_packet_keyword_count (metadata : List (String × String)) :
    ∃ pre post,
      create_xmp_packet metadata =
        pre ++ keywords_xml (dget metadata ("xmp_subject") ("")) ++ post ∧
      keywords_xml (dget metadata ("xmp_subject") ("")) =
        pyJoin ("\n") ((xmpKeywords (dget metadata ("xmp_subject") (""))).map
          fun kw => ("                        <rdf:li>") ++ kw ++ ("</rdf:li>")) ∧
      (xmpKeywords (dget metadata ("xmp_subject") (""))).length =
        (((pySplit (dget metadata ("xmp_subject") ("")) (',')).map
            pyStrip).filter fun t => t ≠ ("")).length := by
  refine ⟨xmp_before_keywords metadata, xmp_after_keywords metadata, rfl, rfl, ?_⟩
  rw [List.filter_map]
  simp only [xmpKeywords, List.length_map]
  rfl

set_option maxRecDepth 40000

/-- C2 (behaviour at the failing input): the XMP builder performs no
entity escaping — the packet built from a title containing `<`, `&`
and `"` carries the raw value verbatim inside the title element, and
no escaped entity form appears anywhere in the packet, so parsing
cannot recover the literal field value from well-formed XML. -/
theorem create_xmp_packet_unescaped :
    strContainsSub
        (create_xmp_packet [(("xmp_title"), ("A<B&C\"D"))])
        ("x-default\">A<B&C\"D</rdf:li>") = true ∧
      strContainsSub (create_xmp_packet [(("xmp_title"), ("A<B&C\"D"))])
        ("&lt;") = false ∧
      strContainsSub (create_xmp_packet [(("xmp_title"), ("A<B&C\"D"))])
        ("&amp;") = false ∧
      strContainsSub (create_xmp_packet [(("xmp_title"), ("A<B&C\"D"))])
        ("&quot;") = false := by
  decide

/-- The metadata keys the XMP builder reads. -/
def xmpFieldKeys : List String :=
  [("xmp_title"), ("xmp_description"), ("xmp_creator"), ("xmp_rights"),
   ("xmp_subject"), ("xmp_headline"), ("xmp_credit"), ("xmp_source"),
   ("xmp_date_created"), ("xmp_category"), ("xmp_website"), ("xmp_phone")]

/-- C9: the XMP builder is total over arbitrary metadata mappings —
when none of its field keys is present every read falls back to its
default, so the result equals the packet of the empty mapping, which
contains an empty title element and the documented creator default in
place of the missing fields; no failure is possible. -/
theorem create_xmp_packet_defaults (metadata : List (String × String))
    (h : ∀ k ∈ xmpFieldKeys, metadata.lookup k = none) :
    create_xmp_packet metadata = create_xmp_packet [] ∧
      strContainsSub (create_xmp_packet metadata)
        ("<rdf:li xml:lang=\"x-default\"></rdf:li>") = true ∧
      strContainsSub (create_xmp_packet metadata)
        ("<rdf:li>GroundSwell</rdf:li>") = true := by
  have h1 := h ("xmp_title") (by decide)
  have h2 := h ("xmp_description") (by decide)
  have h3 := h ("xmp_creator") (by decide)
  have h4 := h ("xmp_rights") (by decide)
  have h5 := h ("xmp_subject") (by decide)
  have h6 := h ("xmp_headline") (by decide)
  have h7 := h ("xmp_credit") (by decide)
  have h8 := h ("xmp_source") (by decide)
  have h9 := h ("xmp_date_created") (by decide)
  have h10 := h ("xmp_category") (by decide)
  have h11 := h ("xmp_website") (by decide)
  have h12 := h ("xmp_phone") (by decide)
  have heq : create_xmp_packet metadata = create_xmp_packet [] := by
    simp only [create_xmp_packet, xmp_before_keywords, xmp_after_keywords,
      dget, h1, h2, h3, h4, h5, h6, h7, h8, h9, h10, h11, h12,
      List.lookup_nil, Option.getD_none]
  exact ⟨heq, by rw [heq]; decide, by rw [heq]; decide⟩

/-- C9 witness: a mapping holding only an unrelated key behaves as the
empty mapping. -/
theorem create_xmp_packet_defaults_witness :
    create_xmp_packet [(("file_id"), ("abc123"))] = create_xmp_packet [] ∧
      strContainsSub (create_xmp_packet [(("file_id"), ("abc123"))])
        ("<rdf:li xml:lang=\"x-default\"></rdf:li>") = true ∧
      strContainsSub (create_xmp_packet [(("file_id"), ("abc123"))])
        ("<rdf:li>GroundSwell</rdf:li>") = true :=
  create_xmp_packet_defaults [(("file_id"), ("abc123"))] (by decide)

/-- CRC validity of any serialized chunk with a 4-byte type: the stored
CRC field equals the CRC-32 recomputed over type plus data. -/
theorem storedCrc_eq (c : PngChunk) (h : c.ctype.length = 4) :
    storedCrc c = be4 (crc32 (c.ctype ++ c.cdata)) := by
  unfold storedCrc chunkBytes
  apply List.drop_left'
  simp [be4, h, List.length_append]
  omega

/-- C7: the chunk-level PNG write inserts, immediately after the header
chunk and before the remaining chunks of the image, exactly the ten
textual chunks with the declared keywords in declaration order — each
with payload keyword, NUL, value, drawn from the code's field mapping —
plus one chunk carrying the XMP packet; and every inserted chunk's
stored CRC field equals the CRC-32 recomputed over its type and
data. -/
theorem write_metadata_to_png_chunks (metadata : List (String × String))
    (header : PngChunk) (rest : List PngChunk) :
    write_metadata_to_png metadata header rest =
      header :: (pngMetaChunks metadata ++ rest) ∧
    pngMetaChunks metadata =
      [pngTextChunk ("Title") (dget metadata ("xmp_title") ("")),
       pngTextChunk ("Description") (dget metadata ("xmp_description") ("")),
       pngTextChunk ("Author") (dget metadata ("exif_artist") ("GroundSwell")),
       pngTextChunk ("Copyright") (dget metadata ("exif_copyright") ("")),
       pngTextChunk ("Comment") (dget metadata ("exif_user_comment") ("")),
       pngTextChunk ("Keywords") (dget metadata ("iptc_keywords") ("")),
       pngTextChunk ("Headline") (dget metadata ("iptc_headline") ("")),
       pngTextChunk ("Credit") (dget metadata ("iptc_credit") ("GroundSwell")),
       pngTextChunk ("Source") (dget metadata ("xmp_source") ("GroundSwell")),
       pngTextChunk ("Creation Time") (dget metadata ("exif_create_date") ("")),
       pngTextChunk ("XML:com.adobe.xmp") (create_xmp_packet metadata)] ∧
    (∀ k v, (pngTextChunk k v).cdata = strBytes k ++ [0] ++ strBytes v) ∧
    ∀ c ∈ pngMetaChunks metadata,
      storedCrc c = be4 (crc32 (c.ctype ++ c.cdata)) := by
  refine ⟨rfl, rfl, fun k v => rfl, ?_⟩
  intro c hc
  simp only [pngMetaChunks, pngMetaPairs, List.map_cons, List.map_nil,
    List.mem_append, List.mem_cons, List.not_mem_nil, or_false] at hc
  rcases hc with (h|h|h|h|h|h|h|h|h|h)|h <;> subst h <;> exact storedCrc_eq _ rfl
